import Mathlib

/-! Verification development for the butterfly_viewer image-comparison
application.  The definitions below are shallow embeddings of the core
logic of the repository: zoom-synchronization factors (aux_functions.py),
split-view geometry and the split lock (aux_splitview.py and
butterfly_viewer.py), pan synchronization (butterfly_viewer.py), opacity
compositing and pixmap normalization (aux_splitview.py), and ruler label
arithmetic (aux_rulers.py).  Python numbers are modelled by ℚ (and by ℝ
where the source uses sqrt/atan2); Python None by Option. -/

/-! ## Zoom synchronization (aux_functions.py) -/

/-- Embedding of `determineSyncSenderDimension(width, height, sync_by)`
(aux_functions.py, lines 17-45).  Returns the sender dimension used for
zoom synchronization; `none` models Python's `None` (the "pixel"
strategy).  Any string other than "width"/"height"/"pixel" falls through
to the "box" rule, which picks the height when `height >= width` and the
width otherwise, exactly as in the source. -/
def determineSyncSenderDimension (width height : ℚ) (sync_by : String) : Option ℚ :=
  if sync_by = "width" then some width
  else if sync_by = "height" then some height
  else if sync_by = "pixel" then none
  else if height ≥ width then some height else some width

/-- Embedding of `determineSyncAdjustmentFactor(sync_by, sender_dimension,
receiver_width, receiver_height)` (aux_functions.py, lines 49-82).
The source first returns 1 when either receiver dimension equals zero and
only afterwards divides.  `sender_dimension` is an `Option` because the
caller may pass the `None` produced by `determineSyncSenderDimension`
under the "pixel" strategy; a division applied to `none` would be a
Python `TypeError`, which the embedding models via `Option.map` (no
result).  In every branch that divides, the receiver dimension used is
exactly the one the source selects. -/
def determineSyncAdjustmentFactor (sync_by : String) (sender_dimension : Option ℚ)
    (receiver_width receiver_height : ℚ) : Option ℚ :=
  if receiver_width = 0 ∨ receiver_height = 0 then some 1
  else if sync_by = "width" then sender_dimension.map (fun d => d / receiver_width)
  else if sync_by = "height" then sender_dimension.map (fun d => d / receiver_height)
  else if sync_by = "pixel" then some 1
  else if receiver_width ≥ receiver_height then
    sender_dimension.map (fun d => d / receiver_width)
  else sender_dimension.map (fun d => d / receiver_height)

/-- Specification-side definition (refinement target), written from the
spec's words: "the receiver's controlling dimension is chosen by the same
rule (box/width/height) applied to the receiver's own image dimensions".
The "same rule" is the sender-side rule of `determineSyncSenderDimension`:
width for "width", height for "height", and the larger dimension (height
on ties) for the box rule. -/
def receiverControllingDimensionSpec (sync_by : String)
    (receiver_width receiver_height : ℚ) : ℚ :=
  if sync_by = "width" then receiver_width
  else if sync_by = "height" then receiver_height
  else if receiver_height ≥ receiver_width then receiver_height else receiver_width

/-- C2: for positive receiver dimensions, the adjustment factor equals the
sender dimension divided by the receiver's controlling dimension (chosen
by the box/width/height rule applied to the receiver's own dimensions),
and is 1 for the "pixel" strategy; in particular a 1000×1000 sender and a
500×500 receiver under "box" give exactly 2. -/
theorem determineSyncAdjustmentFactor_formula :
    (∀ (sync_by : String) (sd rw rh : ℚ), 0 < rw → 0 < rh →
      determineSyncAdjustmentFactor sync_by (some sd) rw rh =
        some (if sync_by = "pixel" then 1
              else sd / receiverControllingDimensionSpec sync_by rw rh)) ∧
    determineSyncAdjustmentFactor "box" (determineSyncSenderDimension 1000 1000 "box")
      500 500 = some 2 := by
  constructor
  · intro sync_by sd rw rh hrw hrh
    have hz : ¬ (rw = 0 ∨ rh = 0) := by
      push_neg
      exact ⟨ne_of_gt hrw, ne_of_gt hrh⟩
    unfold determineSyncAdjustmentFactor receiverControllingDimensionSpec
    rw [if_neg hz]
    by_cases h1 : sync_by = "width"
    · simp [h1]
    · by_cases h2 : sync_by = "height"
      · simp [h1, h2]
      · by_cases h3 : sync_by = "pixel"
        · simp [h1, h2, h3]
        · simp only [h1, h2, h3, if_false]
          rcases lt_trichotomy rw rh with h | h | h
          · rw [if_neg (not_le.mpr h), if_pos (le_of_lt h)]
            simp
          · subst h
            simp
          · rw [if_pos (le_of_lt h), if_neg (not_le.mpr h)]
            simp
  · have h1 : ¬ (("box" : String) = "width") := by decide
    have h2 : ¬ (("box" : String) = "height") := by decide
    have h3 : ¬ (("box" : String) = "pixel") := by decide
    simp only [determineSyncAdjustmentFactor, determineSyncSenderDimension,
      if_neg h1, if_neg h2, if_neg h3]
    norm_num

/-- Witness for C2 at concrete inputs. -/
theorem determineSyncAdjustmentFactor_formula_witness :
    (0 : ℚ) < 500 ∧ (0 : ℚ) < 400 ∧
      determineSyncAdjustmentFactor "width" (some 3) 500 400 =
        some (if "width" = "pixel" then 1
              else 3 / receiverControllingDimensionSpec "width" 500 400) :=
  ⟨by norm_num, by norm_num,
    determineSyncAdjustmentFactor_formula.1 "width" 3 500 400 (by norm_num) (by norm_num)⟩

/-- C3: for each of the four strategies, feeding a viewer's own dimensions
through `determineSyncSenderDimension` and back into
`determineSyncAdjustmentFactor` as both sender and receiver yields exactly
1, despite the box rule resolving width==height ties to height on the
sender side and to width on the receiver side. -/
theorem sync_self_consistency :
    ∀ (sync_by : String) (w h : ℚ),
      (sync_by = "box" ∨ sync_by = "width" ∨ sync_by = "height" ∨ sync_by = "pixel") →
      determineSyncAdjustmentFactor sync_by (determineSyncSenderDimension w h sync_by) w h =
        some 1 := by
  intro sync_by w h hstrat
  by_cases hz : w = 0 ∨ h = 0
  · unfold determineSyncAdjustmentFactor
    rw [if_pos hz]
  · push_neg at hz
    obtain ⟨hw, hh⟩ := hz
    unfold determineSyncAdjustmentFactor determineSyncSenderDimension
    rcases hstrat with hb | hw' | hh' | hp
    · subst hb
      simp only [if_neg (by decide : ¬ ("box" = "width")),
        if_neg (by decide : ¬ ("box" = "height")),
        if_neg (by decide : ¬ ("box" = "pixel")),
        if_neg (not_or.mpr ⟨hw, hh⟩)]
      rcases lt_trichotomy w h with hlt | heq | hgt
      · rw [if_pos (le_of_lt hlt), if_neg (not_le.mpr hlt)]
        simp [div_self hh]
      · subst heq
        simp [div_self hw]
      · rw [if_neg (not_le.mpr hgt), if_pos (le_of_lt hgt)]
        simp [div_self hw]
    · subst hw'
      simp [if_neg (not_or.mpr ⟨hw, hh⟩), div_self hw]
    · subst hh'
      simp [if_neg (not_or.mpr ⟨hw, hh⟩), div_self hh]
    · subst hp
      simp [if_neg (not_or.mpr ⟨hw, hh⟩)]

/-- Witness for C3 at concrete inputs. -/
theorem sync_self_consistency_witness :
    ("box" = "box" ∨ "box" = "width" ∨ "box" = "height" ∨ "box" = "pixel") ∧
      determineSyncAdjustmentFactor "box" (determineSyncSenderDimension 800 600 "box")
        800 600 = some 1 :=
  ⟨Or.inl rfl, sync_self_consistency "box" 800 600 (Or.inl rfl)⟩

/-- C4: if either receiver dimension is 0, the adjustment factor is 1 for
every strategy and every sender dimension (including the `none` produced
by the "pixel" strategy): the guard returns before any division, so no
division-by-zero (and no type error on `None`) can occur. -/
theorem determineSyncAdjustmentFactor_degenerate :
    ∀ (sync_by : String) (sender_dimension : Option ℚ) (rw rh : ℚ),
      (rw = 0 ∨ rh = 0) →
      determineSyncAdjustmentFactor sync_by sender_dimension rw rh = some 1 := by
  intro sync_by sd rw rh hz
  unfold determineSyncAdjustmentFactor
  rw [if_pos hz]

/-- Witness for C4 at concrete inputs. -/
theorem determineSyncAdjustmentFactor_degenerate_witness :
    ((0 : ℚ) = 0 ∨ (7 : ℚ) = 0) ∧
      determineSyncAdjustmentFactor "box" none 0 7 = some 1 :=
  ⟨Or.inl rfl, determineSyncAdjustmentFactor_degenerate "box" none 0 7 (Or.inl rfl)⟩

/-! ## Pixmaps, pixmap_none_ify, and opacity compositing (aux_splitview.py) -/

/-- One RGBA pixel; channels are modelled by ℚ. -/
structure Rgba where
  r : ℚ
  g : ℚ
  b : ℚ
  a : ℚ
deriving DecidableEq

/-- A raster: integer width/height and a row-major grid of pixels. -/
structure Pixmap where
  width : ℕ
  height : ℕ
  pixels : List (List Rgba)
deriving DecidableEq

/-- Embedding of `SplitView.pixmap_none_ify(pixmap)` (aux_splitview.py,
lines 485-500).  `none` models a Python `None` argument.  The source's
test reads `pixmap.width()==0 or pixmap.height==0`: the second comparand
is the bound method object `pixmap.height` itself (it is not called), and
a method object never equals the integer 0, so that disjunct is always
False; the embedding keeps it as a literal `False`. -/
def pixmap_none_ify (pixmap : Option Pixmap) : Option Pixmap :=
  match pixmap with
  | none => none
  | some p => if p.width = 0 ∨ False then none else some p

/-- Embedding of the existence flag computed in `SplitView.__init__`
(aux_splitview.py, lines 74-81): the overlay pixmap is first passed
through `pixmap_none_ify` and the flag records whether the result is not
`None`.  The same expression is used for all three overlay panes. -/
def pixmap_topright_exists (pixmap_topright : Option Pixmap) : Bool :=
  (pixmap_none_ify pixmap_topright).isSome

/-- C10: `pixmap_none_ify` returns `none` exactly when the pixmap is
absent or has zero width; a pixmap of nonzero width is returned unchanged
even when its height is zero (the height test compares the method object,
not its value, against 0), so a zero-height overlay raster is marked as an
existing pane. -/
theorem pixmap_none_ify_zero_height :
    (∀ pm : Option Pixmap,
      pixmap_none_ify pm = none ↔ (pm = none ∨ ∃ p, pm = some p ∧ p.width = 0)) ∧
    (∀ p : Pixmap, p.width ≠ 0 → pixmap_none_ify (some p) = some p) ∧
    (∀ p : Pixmap, p.width ≠ 0 → p.height = 0 →
      pixmap_topright_exists (some p) = true) := by
  refine ⟨?_, ?_, ?_⟩
  · intro pm
    match pm with
    | none => simp [pixmap_none_ify]
    | some p =>
      by_cases hw : p.width = 0
      · simp [pixmap_none_ify, hw]
      · simp [pixmap_none_ify, hw]
  · intro p hw
    simp [pixmap_none_ify, hw]
  · intro p hw _
    simp [pixmap_topright_exists, pixmap_none_ify, hw]

/-- Witness for C10 at a concrete 5×0 pixmap. -/
theorem pixmap_none_ify_zero_height_witness :
    (Pixmap.mk 5 0 []).width ≠ 0 ∧ (Pixmap.mk 5 0 []).height = 0 ∧
      pixmap_topright_exists (some (Pixmap.mk 5 0 [])) = true :=
  ⟨by decide, rfl, pixmap_none_ify_zero_height.2.2 (Pixmap.mk 5 0 []) (by decide) rfl⟩

/-- Drawing a pixel with QPainter opacity `opacity` onto a
transparent-filled destination: the color channels are kept and the alpha
channel is scaled by the painter opacity. -/
def applyPainterOpacity (opacity : ℚ) (px : Rgba) : Rgba :=
  Rgba.mk px.r px.g px.b (px.a * opacity)

/-- Embedding of the compositing performed by every `set_opacity_*` slot
(aux_splitview.py): a new pixmap of the original's size is filled
transparent and the original is drawn onto it with painter opacity
`percent/100`, producing a raster of identical dimensions whose every
pixel has its alpha scaled by `percent/100`.  Named after the local
variable `pixmap_to_be_transparent` in the source. -/
def pixmap_to_be_transparent (percent : ℚ) (original : Pixmap) : Pixmap :=
  Pixmap.mk original.width original.height
    (original.pixels.map (fun row => row.map (applyPainterOpacity (percent / 100))))

/-- The opacity-related state of the base (main/top-left) pane:
`_pixmap_base_original`, the pixmap shown by `_pixmapItem_main_topleft`,
and `_opacity_base`. -/
structure BasePaneState where
  pixmap_base_original : Pixmap
  pixmapItem_main_topleft : Pixmap
  opacity_base : ℚ
deriving DecidableEq

/-- The opacity-related state of one overlay pane (top-right,
bottom-right or bottom-left): its exists flag, `_pixmap_X_original`, the
pixmap shown by `_pixmapItem_X`, and `_opacity_X`. -/
structure OverlayPaneState where
  pixmap_exists : Bool
  pixmap_original : Pixmap
  pixmapItem : Pixmap
  opacity : ℚ
deriving DecidableEq

/-- Embedding of `SplitView.set_opacity_base(percent)` (aux_splitview.py,
lines 932-949): stores the percent and replaces the displayed pixmap by
the recomposited one; there is no existence check for the base pane. -/
def set_opacity_base (s : BasePaneState) (percent : ℚ) : BasePaneState :=
  BasePaneState.mk s.pixmap_base_original
    (pixmap_to_be_transparent percent s.pixmap_base_original) percent

/-- Embedding of `SplitView.set_opacity_topright(percent)`
(aux_splitview.py, lines 961-984): when the pane does not exist, the
stored opacity is set to 100 and the method returns without touching any
pixmap; otherwise the percent is stored and the displayed pixmap is
recomposited from the original. -/
def set_opacity_topright (s : OverlayPaneState) (percent : ℚ) : OverlayPaneState :=
  if s.pixmap_exists = false then
    OverlayPaneState.mk s.pixmap_exists s.pixmap_original s.pixmapItem 100
  else
    OverlayPaneState.mk s.pixmap_exists s.pixmap_original
      (pixmap_to_be_transparent percent s.pixmap_original) percent

/-- Embedding of `SplitView.set_opacity_bottomright(percent)`
(aux_splitview.py, lines 997-1017); its body matches the top-right one. -/
def set_opacity_bottomright (s : OverlayPaneState) (percent : ℚ) : OverlayPaneState :=
  if s.pixmap_exists = false then
    OverlayPaneState.mk s.pixmap_exists s.pixmap_original s.pixmapItem 100
  else
    OverlayPaneState.mk s.pixmap_exists s.pixmap_original
      (pixmap_to_be_transparent percent s.pixmap_original) percent

/-- Embedding of `SplitView.set_opacity_bottomleft(percent)`
(aux_splitview.py, lines 1030-1050); its body matches the top-right one. -/
def set_opacity_bottomleft (s : OverlayPaneState) (percent : ℚ) : OverlayPaneState :=
  if s.pixmap_exists = false then
    OverlayPaneState.mk s.pixmap_exists s.pixmap_original s.pixmapItem 100
  else
    OverlayPaneState.mk s.pixmap_exists s.pixmap_original
      (pixmap_to_be_transparent percent s.pixmap_original) percent

/-- Recompositing at 100 percent reproduces the original raster exactly. -/
theorem pixmap_to_be_transparent_hundred (p : Pixmap) :
    pixmap_to_be_transparent 100 p = p := by
  have hpx : ∀ px : Rgba, applyPainterOpacity ((100 : ℚ) / 100) px = px := by
    intro px
    simp [applyPainterOpacity]
  cases p with
  | mk w h pxs =>
    simp only [pixmap_to_be_transparent, Pixmap.mk.injEq, true_and]
    calc pxs.map (fun row => row.map (applyPainterOpacity ((100 : ℚ) / 100)))
        = pxs.map (fun row => row.map id) := by
          apply List.map_congr_left
          intro row _
          apply List.map_congr_left
          intro px _
          exact hpx px
      _ = pxs := by simp

/-- C7: for every pane state and every percent, `set_opacity_*` leaves the
stored original pixmap untouched; and setting opacity to 100 makes the
displayed pixmap identical (dimensions and every pixel) to the original —
unconditionally for the base pane, and for each overlay pane that
exists. -/
theorem set_opacity_preserves_original :
    ∀ (b : BasePaneState) (s : OverlayPaneState) (percent : ℚ),
      (set_opacity_base b percent).pixmap_base_original = b.pixmap_base_original ∧
      (set_opacity_topright s percent).pixmap_original = s.pixmap_original ∧
      (set_opacity_bottomright s percent).pixmap_original = s.pixmap_original ∧
      (set_opacity_bottomleft s percent).pixmap_original = s.pixmap_original ∧
      (set_opacity_base b 100).pixmapItem_main_topleft = b.pixmap_base_original ∧
      (s.pixmap_exists = true →
        (set_opacity_topright s 100).pixmapItem = s.pixmap_original ∧
        (set_opacity_bottomright s 100).pixmapItem = s.pixmap_original ∧
        (set_opacity_bottomleft s 100).pixmapItem = s.pixmap_original) := by
  intro b s percent
  refine ⟨?_, ?_, ?_, ?_, ?_, ?_⟩
  · rfl
  · unfold set_opacity_topright
    by_cases h : s.pixmap_exists = false <;> simp [h]
  · unfold set_opacity_bottomright
    by_cases h : s.pixmap_exists = false <;> simp [h]
  · unfold set_opacity_bottomleft
    by_cases h : s.pixmap_exists = false <;> simp [h]
  · exact pixmap_to_be_transparent_hundred b.pixmap_base_original
  · intro hex
    have hne : ¬ (s.pixmap_exists = false) := by simp [hex]
    refine ⟨?_, ?_, ?_⟩
    · unfold set_opacity_topright
      simp [hne, pixmap_to_be_transparent_hundred]
    · unfold set_opacity_bottomright
      simp [hne, pixmap_to_be_transparent_hundred]
    · unfold set_opacity_bottomleft
      simp [hne, pixmap_to_be_transparent_hundred]

/-- Witness for C7 at a concrete one-pixel pane. -/
theorem set_opacity_preserves_original_witness :
    (OverlayPaneState.mk true (Pixmap.mk 1 1 [[Rgba.mk 1 2 3 4]])
        (Pixmap.mk 0 0 []) 50).pixmap_exists = true ∧
      (set_opacity_topright
          (OverlayPaneState.mk true (Pixmap.mk 1 1 [[Rgba.mk 1 2 3 4]])
            (Pixmap.mk 0 0 []) 50) 100).pixmapItem =
        (OverlayPaneState.mk true (Pixmap.mk 1 1 [[Rgba.mk 1 2 3 4]])
            (Pixmap.mk 0 0 []) 50).pixmap_original :=
  ⟨rfl,
    ((set_opacity_preserves_original
        (BasePaneState.mk (Pixmap.mk 0 0 []) (Pixmap.mk 0 0 []) 100)
        (OverlayPaneState.mk true (Pixmap.mk 1 1 [[Rgba.mk 1 2 3 4]])
          (Pixmap.mk 0 0 []) 50) 100).2.2.2.2.2 rfl).1⟩

/-- C8: for an overlay pane whose exists flag is False, `set_opacity_*`
with any percent stores opacity 100, leaves the displayed pixmap
unchanged, and produces no new raster (the original is also untouched). -/
theorem set_opacity_nonexistent_pane :
    ∀ (s : OverlayPaneState) (percent : ℚ), s.pixmap_exists = false →
      ((set_opacity_topright s percent).opacity = 100 ∧
        (set_opacity_topright s percent).pixmapItem = s.pixmapItem ∧
        (set_opacity_topright s percent).pixmap_original = s.pixmap_original) ∧
      ((set_opacity_bottomright s percent).opacity = 100 ∧
        (set_opacity_bottomright s percent).pixmapItem = s.pixmapItem ∧
        (set_opacity_bottomright s percent).pixmap_original = s.pixmap_original) ∧
      ((set_opacity_bottomleft s percent).opacity = 100 ∧
        (set_opacity_bottomleft s percent).pixmapItem = s.pixmapItem ∧
        (set_opacity_bottomleft s percent).pixmap_original = s.pixmap_original) := by
  intro s percent h
  unfold set_opacity_topright set_opacity_bottomright set_opacity_bottomleft
  simp [h]

/-- Witness for C8 at a concrete nonexistent pane. -/
theorem set_opacity_nonexistent_pane_witness :
    (OverlayPaneState.mk false (Pixmap.mk 1 1 [[Rgba.mk 1 2 3 4]])
        (Pixmap.mk 1 1 [[Rgba.mk 9 9 9 9]]) 70).pixmap_exists = false ∧
      (set_opacity_topright
          (OverlayPaneState.mk false (Pixmap.mk 1 1 [[Rgba.mk 1 2 3 4]])
            (Pixmap.mk 1 1 [[Rgba.mk 9 9 9 9]]) 70) 25).opacity = 100 ∧
      (set_opacity_topright
          (OverlayPaneState.mk false (Pixmap.mk 1 1 [[Rgba.mk 1 2 3 4]])
            (Pixmap.mk 1 1 [[Rgba.mk 9 9 9 9]]) 70) 25).pixmapItem =
        (OverlayPaneState.mk false (Pixmap.mk 1 1 [[Rgba.mk 1 2 3 4]])
            (Pixmap.mk 1 1 [[Rgba.mk 9 9 9 9]]) 70).pixmapItem :=
  ⟨rfl,
    (set_opacity_nonexistent_pane
      (OverlayPaneState.mk false (Pixmap.mk 1 1 [[Rgba.mk 1 2 3 4]])
        (Pixmap.mk 1 1 [[Rgba.mk 9 9 9 9]]) 70) 25 rfl).1.1,
    (set_opacity_nonexistent_pane
      (OverlayPaneState.mk false (Pixmap.mk 1 1 [[Rgba.mk 1 2 3 4]])
        (Pixmap.mk 1 1 [[Rgba.mk 9 9 9 9]]) 70) 25 rfl).1.2.1⟩

/-! ## Split-view geometry and the split lock (aux_splitview.py,
butterfly_viewer.py) -/

/-- A 2D point with rational coordinates (models QPointF). -/
structure PointQ where
  x : ℚ
  y : ℚ
deriving DecidableEq

/-- A rectangle given by its top-left and bottom-right corners (models
the QRectF built from two corner points in `update_split`). -/
structure RectQ where
  topLeft : PointQ
  bottomRight : PointQ
deriving DecidableEq

/-- The widget-to-scene map of the main view (`mapToScene` of
`_view_main_topleft`).  A QGraphicsView transform made of zoom and scroll
is affine and axis-aligned, so it is parameterized by a scale and an
offset per axis. -/
structure ViewTransform where
  sx : ℚ
  ox : ℚ
  sy : ℚ
  oy : ℚ
deriving DecidableEq

/-- `mapToScene` for the transform above. -/
def mapToScene (v : ViewTransform) (x y : ℚ) : PointQ :=
  PointQ.mk (v.sx * x + v.ox) (v.sy * y + v.oy)

/-- The state of a SplitView that `update_split` reads and writes
(aux_splitview.py): the split lock flag (`split_locked`, initialized in
`__init__`), the main view's widget-to-scene transform, the widget size
(`self.width()`, `self.height()`), the three per-pane load-time zoom
adjustment factors (`_topright_zoom_adjust` etc.), the cached scene-space
split point, the layout-driving maximum width/height, and the three
overlay scene rectangles and viewport centers. -/
structure SplitViewState where
  split_locked : Bool
  view_main_topleft : ViewTransform
  widget_width : ℚ
  widget_height : ℚ
  topright_zoom_adjust : ℚ
  bottomright_zoom_adjust : ℚ
  bottomleft_zoom_adjust : ℚ
  last_updated_point_of_split_on_scene_main : PointQ
  layoutdriving_maximum_width : ℚ
  layoutdriving_maximum_height : ℚ
  rect_of_scene_topright : RectQ
  rect_of_scene_bottomright : RectQ
  rect_of_scene_bottomleft : RectQ
  center_topright : PointQ
  center_bottomright : PointQ
  center_bottomleft : PointQ
deriving DecidableEq

/-- The fixed render-buffer margin (`render_buffer = 100` in
`update_split`). -/
def render_buffer : ℚ := 100

namespace SplitView

/-- Embedding of `SplitView.update_split(pos)` (aux_splitview.py, lines
546-603) for a widget-local `pos` (the `pos_is_global=False` branch; the
`ignore_lock` parameter of the source is unused in the body).  The mouse
point is offset by +1 on each axis; the cached split point is the scene
image of the un-clamped offset point; the split point used for the
rectangles is the scene image of the offset point clamped to be
non-negative; each overlay rectangle is built from corners scaled by
`1/zoom_adjust`, with the render buffer added to the far corner, and each
overlay viewport is centered on its rectangle's top-left corner. -/
def update_split (s : SplitViewState) (pos : PointQ) : SplitViewState :=
  let mouse_x := pos.x + 1
  let mouse_y := pos.y + 1
  let point_of_widget_origin_on_scene_main := mapToScene s.view_main_topleft 0 0
  let point_of_split_on_scene_main :=
    mapToScene s.view_main_topleft (max mouse_x 0) (max mouse_y 0)
  let point_of_bottom_right_on_scene_main :=
    mapToScene s.view_main_topleft s.widget_width s.widget_height
  let scale_topright := 1 / s.topright_zoom_adjust
  let scale_bottomright := 1 / s.bottomright_zoom_adjust
  let scale_bottomleft := 1 / s.bottomleft_zoom_adjust
  let top_left_of_scene_topright :=
    PointQ.mk (point_of_split_on_scene_main.x * scale_topright)
      (point_of_widget_origin_on_scene_main.y * scale_topright)
  let bottom_right_of_scene_topright :=
    PointQ.mk (point_of_bottom_right_on_scene_main.x * scale_topright + render_buffer)
      (point_of_split_on_scene_main.y * scale_topright + render_buffer)
  let top_left_of_scene_bottomright :=
    PointQ.mk (point_of_split_on_scene_main.x * scale_bottomright)
      (point_of_split_on_scene_main.y * scale_bottomright)
  let bottom_right_of_scene_bottomright :=
    PointQ.mk (point_of_bottom_right_on_scene_main.x * scale_bottomright + render_buffer)
      (point_of_bottom_right_on_scene_main.y * scale_bottomright + render_buffer)
  let top_left_of_scene_bottomleft :=
    PointQ.mk (point_of_widget_origin_on_scene_main.x * scale_bottomleft)
      (point_of_split_on_scene_main.y * scale_bottomleft)
  let bottom_right_of_scene_bottomleft :=
    PointQ.mk (point_of_split_on_scene_main.x * scale_bottomleft + render_buffer)
      (point_of_bottom_right_on_scene_main.y * scale_bottomleft + render_buffer)
  { s with
    last_updated_point_of_split_on_scene_main :=
      mapToScene s.view_main_topleft mouse_x mouse_y
    layoutdriving_maximum_width := max mouse_x 0
    layoutdriving_maximum_height := max mouse_y 0
    rect_of_scene_topright :=
      RectQ.mk top_left_of_scene_topright bottom_right_of_scene_topright
    rect_of_scene_bottomright :=
      RectQ.mk top_left_of_scene_bottomright bottom_right_of_scene_bottomright
    rect_of_scene_bottomleft :=
      RectQ.mk top_left_of_scene_bottomleft bottom_right_of_scene_bottomleft
    center_topright := top_left_of_scene_topright
    center_bottomright := top_left_of_scene_bottomright
    center_bottomleft := top_left_of_scene_bottomleft }

end SplitView

namespace SplitViewMdiChild

/-- Embedding of `SplitViewMdiChild.update_split(pos, pos_is_global,
ignore_lock)` (butterfly_viewer.py, lines 122-128): the parent update runs
exactly when the split is not locked or the lock-override flag is set. -/
def update_split (s : SplitViewState) (pos : PointQ) (ignore_lock : Bool) : SplitViewState :=
  if ¬ s.split_locked ∨ ignore_lock then SplitView.update_split s pos else s

end SplitViewMdiChild

/-- Specification-side crop rectangle (refinement target), written from
the spec's words for C1: the rectangle from a scaled top-left corner to a
scaled far corner, with the far corner expanded by the render-buffer
margin. -/
def cropRectSpec (near far : PointQ) (scale buffer : ℚ) : RectQ :=
  RectQ.mk (PointQ.mk (near.x * scale) (near.y * scale))
    (PointQ.mk (far.x * scale + buffer) (far.y * scale + buffer))

/-- C1: for every state and pointer position, `update_split` builds the
three overlay crop rectangles from the main-pane scene images of the
widget origin, the clamped split point, and the widget's bottom-right
corner — top-right from (split.x, origin.y) to (bottomright.x, split.y),
bottom-right from split to bottomright, bottom-left from (origin.x,
split.y) to (split.x, bottomright.y) — each corner scaled by
1/zoom_adjust, the far corner expanded by the render buffer, and each
viewport centered on its rectangle's top-left corner. -/
theorem update_split_crop_rectangles :
    ∀ (s : SplitViewState) (pos : PointQ),
      (SplitView.update_split s pos).rect_of_scene_topright =
        cropRectSpec
          (PointQ.mk
            (mapToScene s.view_main_topleft (max (pos.x + 1) 0) (max (pos.y + 1) 0)).x
            (mapToScene s.view_main_topleft 0 0).y)
          (PointQ.mk
            (mapToScene s.view_main_topleft s.widget_width s.widget_height).x
            (mapToScene s.view_main_topleft (max (pos.x + 1) 0) (max (pos.y + 1) 0)).y)
          (1 / s.topright_zoom_adjust) render_buffer ∧
      (SplitView.update_split s pos).rect_of_scene_bottomright =
        cropRectSpec
          (mapToScene s.view_main_topleft (max (pos.x + 1) 0) (max (pos.y + 1) 0))
          (mapToScene s.view_main_topleft s.widget_width s.widget_height)
          (1 / s.bottomright_zoom_adjust) render_buffer ∧
      (SplitView.update_split s pos).rect_of_scene_bottomleft =
        cropRectSpec
          (PointQ.mk
            (mapToScene s.view_main_topleft 0 0).x
            (mapToScene s.view_main_topleft (max (pos.x + 1) 0) (max (pos.y + 1) 0)).y)
          (PointQ.mk
            (mapToScene s.view_main_topleft (max (pos.x + 1) 0) (max (pos.y + 1) 0)).x
            (mapToScene s.view_main_topleft s.widget_width s.widget_height).y)
          (1 / s.bottomleft_zoom_adjust) render_buffer ∧
      (SplitView.update_split s pos).center_topright =
        (SplitView.update_split s pos).rect_of_scene_topright.topLeft ∧
      (SplitView.update_split s pos).center_bottomright =
        (SplitView.update_split s pos).rect_of_scene_bottomright.topLeft ∧
      (SplitView.update_split s pos).center_bottomleft =
        (SplitView.update_split s pos).rect_of_scene_bottomleft.topLeft := by
  intro s pos
  refine ⟨rfl, rfl, rfl, rfl, rfl, rfl⟩

/-- A sample SplitViewState used to instantiate lock theorems. -/
def sampleSplitViewState : SplitViewState :=
  SplitViewState.mk true (ViewTransform.mk 1 0 1 0) 800 600 2 2 2
    (PointQ.mk 0 0) 0 0
    (RectQ.mk (PointQ.mk 0 0) (PointQ.mk 0 0))
    (RectQ.mk (PointQ.mk 0 0) (PointQ.mk 0 0))
    (RectQ.mk (PointQ.mk 0 0) (PointQ.mk 0 0))
    (PointQ.mk 0 0) (PointQ.mk 0 0) (PointQ.mk 0 0)

/-- C5: while the split is locked, `SplitViewMdiChild.update_split`
without the lock-override flag leaves the whole split state — in
particular the cached scene-space split point and all pane rectangles —
unchanged; with `ignore_lock = true` it performs exactly the parent
(unconditional) update, and the state immediately afterwards is still
locked. -/
theorem split_lock_suppresses_pointer_updates :
    ∀ (s : SplitViewState) (pos : PointQ), s.split_locked = true →
      SplitViewMdiChild.update_split s pos false = s ∧
      SplitViewMdiChild.update_split s pos true = SplitView.update_split s pos ∧
      (SplitViewMdiChild.update_split s pos true).split_locked = true := by
  intro s pos h
  refine ⟨?_, ?_, ?_⟩
  · unfold SplitViewMdiChild.update_split
    simp [h]
  · unfold SplitViewMdiChild.update_split
    simp
  · unfold SplitViewMdiChild.update_split SplitView.update_split
    simp [h]

/-- Witness for C5 at a concrete locked state. -/
theorem split_lock_suppresses_pointer_updates_witness :
    sampleSplitViewState.split_locked = true ∧
      SplitViewMdiChild.update_split sampleSplitViewState (PointQ.mk 10 20) false =
        sampleSplitViewState ∧
      (SplitViewMdiChild.update_split sampleSplitViewState (PointQ.mk 10 20) true).split_locked =
        true :=
  ⟨rfl,
    (split_lock_suppresses_pointer_updates sampleSplitViewState (PointQ.mk 10 20) rfl).1,
    (split_lock_suppresses_pointer_updates sampleSplitViewState (PointQ.mk 10 20) rfl).2.2⟩

/-! ## Pan synchronization (butterfly_viewer.py, MultiViewMainWindow) -/

/-- The pan-relevant state of one subwindow's viewer: its scroll state
(horizontal and vertical scrollbar positions) and its
`sync_this_pan` participation flag. -/
structure PanWindow where
  scrollState : ℚ × ℚ
  sync_this_pan : Bool
deriving DecidableEq

/-- The pan-synchronization state of the main window: the single
in-flight flag `_handlingScrollChangedSignal`, the index of the active
subwindow, and the subwindow list. -/
structure PanSyncState where
  handlingScrollChangedSignal : Bool
  activeIndex : ℕ
  windows : List PanWindow
deriving DecidableEq

/-- Embedding of `MultiViewMainWindow.synchPan(fromViewer)`
(butterfly_viewer.py, lines 1648-1672).  `fromIndex?` is the index of
`fromViewer`'s parent subwindow in the subwindow list, or `none` when the
parent is the main window itself.  The source returns unchanged when the
in-flight flag is set, and when the parent is neither the active
subwindow nor the main window; otherwise it sets the flag, copies the
sender's scroll state to every other subwindow whose viewer has
`sync_this_pan`, and clears the flag again (so the resulting flag is the
`False` it started from). -/
def synchPan (st : PanSyncState) (fromViewer : PanWindow) (fromIndex? : Option ℕ) :
    PanSyncState :=
  if st.handlingScrollChangedSignal then st
  else if fromIndex? ≠ some st.activeIndex ∧ fromIndex? ≠ none then st
  else
    let newState := fromViewer.scrollState
    PanSyncState.mk st.handlingScrollChangedSignal st.activeIndex
      (st.windows.enum.map (fun p =>
        if some p.1 ≠ fromIndex? ∧ p.2.sync_this_pan then
          PanWindow.mk newState p.2.sync_this_pan
        else p.2))

/-- C6: while the in-flight flag `_handlingScrollChangedSignal` is set,
every invocation of `synchPan` returns the state unchanged — in
particular no viewer's scroll state is modified — so notifications raised
as a side effect of a synchronization pass never propagate further. -/
theorem synchPan_reentrancy_guard :
    ∀ (st : PanSyncState) (fromViewer : PanWindow) (fromIndex? : Option ℕ),
      st.handlingScrollChangedSignal = true →
      synchPan st fromViewer fromIndex? = st ∧
      (synchPan st fromViewer fromIndex?).windows = st.windows := by
  intro st fv i h
  unfold synchPan
  simp [h]

/-- Witness for C6 at a concrete in-flight state. -/
theorem synchPan_reentrancy_guard_witness :
    (PanSyncState.mk true 0 [PanWindow.mk (0, 0) true]).handlingScrollChangedSignal = true ∧
      synchPan (PanSyncState.mk true 0 [PanWindow.mk (0, 0) true])
          (PanWindow.mk (1, 1) true) (some 0) =
        PanSyncState.mk true 0 [PanWindow.mk (0, 0) true] :=
  ⟨rfl,
    (synchPan_reentrancy_guard (PanSyncState.mk true 0 [PanWindow.mk (0, 0) true])
        (PanWindow.mk (1, 1) true) (some 0) rfl).1⟩

/-! ## Ruler endpoint labels (aux_rulers.py, CustomItem) -/

/-- Two-argument arctangent in radians with the quadrant conventions of
`math.atan2` (modelled over ℝ, ignoring signed zeros). -/
noncomputable def atan2 (y x : ℝ) : ℝ :=
  if 0 < x then Real.arctan (y / x)
  else if x < 0 ∧ 0 ≤ y then Real.arctan (y / x) + Real.pi
  else if x < 0 then Real.arctan (y / x) - Real.pi
  else if 0 < y then Real.pi / 2
  else if y < 0 then -(Real.pi / 2)
  else 0

/-- `math.degrees`: radians to degrees. -/
noncomputable def degrees (x : ℝ) : ℝ := x * 180 / Real.pi

/-- Embedding of `CustomItem.get_line_length(line)` (aux_rulers.py, lines
212-224) on a line with endpoints (x1,y1) and (x2,y2). -/
noncomputable def get_line_length (x1 y1 x2 y2 : ℝ) : ℝ :=
  Real.sqrt ((x2 - x1) ^ 2 + (y2 - y1) ^ 2)

/-- The state of a CustomItem ruler endpoint that the label-refresh
methods read (aux_rulers.py): the line's two endpoints, the pixel-per-unit
conversion, the unit string, the origin orientation and the sign
`y_origin` derived from it (initialized to -1 in `__init__`). -/
structure CustomItemState where
  line_p1 : ℝ × ℝ
  line_p2 : ℝ × ℝ
  px_per_unit : ℝ
  unit : String
  relative_origin_position : String
  y_origin : ℝ

/-- Embedding of `CustomItem.set_relative_origin_position(rop)`
(aux_rulers.py, lines 75-93): always records the string, and sets
`y_origin` to +1 for "topleft", to -1 for "bottomleft", and leaves it
unchanged for any other string. -/
def set_relative_origin_position (s : CustomItemState) (rop : String) : CustomItemState :=
  { s with
    relative_origin_position := rop
    y_origin :=
      if rop = "topleft" then 1
      else if rop = "bottomleft" then -1
      else s.y_origin }

/-- The numeric content of one endpoint label: absolute length,
horizontal delta, vertical delta (each in the configured unit), and angle
in degrees. -/
structure LabelData where
  length_unit : ℝ
  dx_unit : ℝ
  dy_unit : ℝ
  ang : ℝ

/-- Embedding of the values computed by `CustomItem.update_text1`
(aux_rulers.py, lines 135-154): deltas are endpoint 1 minus endpoint 2,
the vertical delta is multiplied by `y_origin`, and the angle is
`degrees(atan2(dy_unit, dx_unit))`. -/
noncomputable def update_text1_data (s : CustomItemState) : LabelData :=
  let length_px := get_line_length s.line_p1.1 s.line_p1.2 s.line_p2.1 s.line_p2.2
  let length_unit := length_px / s.px_per_unit
  let dx_unit := (s.line_p1.1 - s.line_p2.1) / s.px_per_unit
  let dy_unit := ((s.line_p1.2 - s.line_p2.2) / s.px_per_unit) * s.y_origin
  LabelData.mk length_unit dx_unit dy_unit (degrees (atan2 dy_unit dx_unit))

/-- Embedding of the values computed by `CustomItem.update_text2`
(aux_rulers.py, lines 156-175): as `update_text1` but with endpoint 2
minus endpoint 1. -/
noncomputable def update_text2_data (s : CustomItemState) : LabelData :=
  let length_px := get_line_length s.line_p1.1 s.line_p1.2 s.line_p2.1 s.line_p2.2
  let length_unit := length_px / s.px_per_unit
  let dx_unit := (s.line_p2.1 - s.line_p1.1) / s.px_per_unit
  let dy_unit := ((s.line_p2.2 - s.line_p1.2) / s.px_per_unit) * s.y_origin
  LabelData.mk length_unit dx_unit dy_unit (degrees (atan2 dy_unit dx_unit))

/-- C9: each endpoint label's vertical delta is (this endpoint's y minus
the other endpoint's y)/px_per_unit times -1 under the "bottomleft"
origin and times +1 under "topleft", and its angle is the degree atan2 of
that sign-adjusted vertical delta over the horizontal delta; on a ruler
with px_per_unit = 10, unit "mm", and endpoints 100 px apart horizontally
the endpoint label shows length 10, dx 10, dy 0 and angle 0. -/
theorem ruler_label_dy_sign_and_angle :
    (∀ s : CustomItemState,
      (update_text1_data (set_relative_origin_position s "bottomleft")).dy_unit =
        ((s.line_p1.2 - s.line_p2.2) / s.px_per_unit) * (-1) ∧
      (update_text1_data (set_relative_origin_position s "topleft")).dy_unit =
        ((s.line_p1.2 - s.line_p2.2) / s.px_per_unit) * 1 ∧
      (update_text2_data (set_relative_origin_position s "bottomleft")).dy_unit =
        ((s.line_p2.2 - s.line_p1.2) / s.px_per_unit) * (-1) ∧
      (update_text2_data (set_relative_origin_position s "topleft")).dy_unit =
        ((s.line_p2.2 - s.line_p1.2) / s.px_per_unit) * 1 ∧
      (update_text1_data s).ang =
        degrees (atan2 (update_text1_data s).dy_unit (update_text1_data s).dx_unit) ∧
      (update_text2_data s).ang =
        degrees (atan2 (update_text2_data s).dy_unit (update_text2_data s).dx_unit)) ∧
    update_text1_data (CustomItemState.mk (100, 0) (0, 0) 10 "mm" "bottomleft" (-1)) =
      LabelData.mk 10 10 0 0 ∧
    (CustomItemState.mk (100, 0) (0, 0) 10 "mm" "bottomleft" (-1)).unit = "mm" := by
  refine ⟨?_, ?_, rfl⟩
  · intro s
    have hbl : ¬ (("bottomleft" : String) = "topleft") := by decide
    refine ⟨?_, rfl, ?_, rfl, rfl, rfl⟩
    · simp [update_text1_data, set_relative_origin_position, hbl]
    · simp [update_text2_data, set_relative_origin_position, hbl]
  · unfold update_text1_data get_line_length
    simp only [LabelData.mk.injEq]
    have hsq : ((0 : ℝ) - 100) ^ 2 + ((0 : ℝ) - 0) ^ 2 = 100 ^ 2 := by norm_num
    have hlen : Real.sqrt (((0 : ℝ) - 100) ^ 2 + ((0 : ℝ) - 0) ^ 2) = 100 := by
      rw [hsq, Real.sqrt_sq (by norm_num : (0 : ℝ) ≤ 100)]
    refine ⟨?_, by norm_num, by norm_num, ?_⟩
    · rw [hlen]
      norm_num
    · have hdy : (((0 : ℝ) - 0) / 10) * (-1) = 0 := by norm_num
      have hdx : ((100 : ℝ) - 0) / 10 = 10 := by norm_num
      rw [hdy, hdx]
      unfold atan2 degrees
      rw [if_pos (by norm_num : (0 : ℝ) < 10)]
      simp [Real.arctan_zero]
